import Mathlib

/-!
Shallow embedding of the pumlpy engine (`src/pumlpy`): the graph space,
relation synthesis and rendering from `pumlpy/impl/base.py`, and the
recursive extractor from `pumlpy/extractor.py`.

Modelling conventions:
* Python `dict`s are insertion-ordered association lists (`dget`, `dset`,
  `dmem` mirror `d[k]`, `d[k] = v`, `k in d`).
* Python exceptions are `Except String`; the message records the Python
  exception raised.
* Python object identity of `BaseUMLObjectRef` (each constructor call makes
  a distinct object) is modelled by an allocation counter `nextRefId` on the
  space: two refs are "the same object" iff their `refId`s agree.
* The host-runtime reflection facility (classes, functions, modules,
  generics seen by `inspect`) is modelled by a table of raw entities
  (`World`); cyclic class graphs are expressed through class ids.
-/

namespace Pumlpy

set_option autoImplicit false

universe u

variable {α : Type u}

/-- Python `d.get(k)` / guarded `d[k]` on an insertion-ordered dict. -/
def dget (d : List (String × α)) (k : String) : Option α :=
  match d with
  | [] => none
  | (k', v) :: rest => if k' = k then some v else dget rest k

/-- Python `k in d` (key containment in a dict). -/
def dmem (d : List (String × α)) (k : String) : Bool :=
  (dget d k).isSome

/-- Python `d[k] = v`: replaces the value in place when the key exists
(keeping its position, as CPython dicts do), else appends the pair. -/
def dset (d : List (String × α)) (k : String) (v : α) : List (String × α) :=
  match d with
  | [] => [(k, v)]
  | (k', v') :: rest => if k' = k then (k, v) :: rest else (k', v') :: dset rest k v

@[simp] theorem dget_dset_self (d : List (String × α)) (k : String) (v : α) :
    dget (dset d k v) k = some v := by
  induction d with
  | nil => simp [dset, dget]
  | cons hd tl ih =>
    obtain ⟨k', v'⟩ := hd
    by_cases h : k' = k
    · simp [dset, dget, h]
    · simp [dset, dget, h, ih]

@[simp] theorem dmem_dset_self (d : List (String × α)) (k : String) (v : α) :
    dmem (dset d k v) k = true := by
  simp [dmem]

deriving instance DecidableEq for Except

/-- Structural worker for Python `str.split`: the fuel (the string length)
makes the recursion structural so that it evaluates by kernel reduction
(`String.splitOn` is defined by well-founded recursion and gets stuck). -/
def pySplitAux (sep : List Char) : Nat → List Char → List Char → List (List Char)
  | _, [], acc => [acc.reverse]
  | 0, s, acc => [acc.reverse ++ s]
  | fuel + 1, c :: rest, acc =>
    if sep.isPrefixOf (c :: rest) then
      acc.reverse :: pySplitAux sep fuel ((c :: rest).drop sep.length) []
    else
      pySplitAux sep fuel rest (c :: acc)

/-- Python `s.split(sep)` for the non-empty separators the source uses
(Python raises `ValueError` on an empty separator). -/
def pySplit (s sep : String) : List String :=
  if sep.data.isEmpty then [s]
  else (pySplitAux sep.data s.data.length s.data []).map String.mk

/-- Python `s.startswith(pre)`. -/
def pyStartsWith (s pre : String) : Bool :=
  pre.data.isPrefixOf s.data

/-- Python `s.endswith(suf)`. -/
def strEndsWith (s suf : String) : Bool :=
  suf.data.isSuffixOf s.data

/-- Python `pat in s`: substring containment (`'' in s` is true). -/
def strContains (s pat : String) : Bool :=
  if pat.data.isEmpty then true else (pySplit s pat).length != 1

/-- Structural worker for Python `str.replace`. -/
def pyReplaceAux (old new : List Char) : Nat → List Char → List Char
  | _, [] => []
  | 0, s => s
  | fuel + 1, c :: rest =>
    if old.isPrefixOf (c :: rest) then
      new ++ pyReplaceAux old new fuel ((c :: rest).drop old.length)
    else
      c :: pyReplaceAux old new fuel rest

/-- Python `s.replace(old, new)` for the non-empty `old` patterns the
source uses. -/
def pyReplace (s old new : String) : String :=
  if old.data.isEmpty then s
  else String.mk (pyReplaceAux old.data new.data s.data.length s.data)

/-- Python `xs.split(sep)[-1]` (split never returns an empty list). -/
def lastPart (s sep : String) : String :=
  (pySplit s sep).getLastD s

/-- `UMLMemberMode` from `impl/base.py`: member visibility and its
rendering symbol. -/
inductive UMLMemberMode where
  | pub
  | prot
  | priv
deriving DecidableEq, Repr

/-- The `value` of each `UMLMemberMode` enum member. -/
def UMLMemberMode.val : UMLMemberMode → String
  | .pub => "+"
  | .prot => "#"
  | .priv => "-"

/-- `UMLRelationType` from `impl/base.py`. -/
inductive UMLRelationType where
  | association
  | aggregation
  | composition
  | inheritance
  | implementation
  | dependency
  | link
deriving DecidableEq, Repr

/-- The PlantUML arrow `value` of each `UMLRelationType` member. -/
def UMLRelationType.val : UMLRelationType → String
  | .association => "--"
  | .aggregation => "*-->"
  | .composition => "o-->"
  | .inheritance => "--|>"
  | .implementation => "..|>"
  | .dependency => "-->"
  | .link => ".."

/-- `BaseUMLRelation`: a `(source, target, relation)` triple of qualified
names and a relation kind. -/
structure UMLRelation where
  source : String
  target : String
  relation : UMLRelationType
deriving DecidableEq, Repr

mutual
/-- The materialized UML objects of `impl/base.py`.
`cls` carries `(full_qualname, empty, is_interface, ancestors,
attributes, methods)` where the two member lists are flattened in the
iteration order of the Python dicts (`PUBLIC ++ PROTECTED ++ PRIVATE`).
`method` carries `(full_qualname, empty, is_bounded, params, returns)`.
`generic` carries `(full_qualname, empty, is_builtin, args)`. -/
inductive UMLObject : Type where
  | cls (full_qualname : String) (empty : Bool) (is_interface : Bool)
      (ancestors : List Hint) (attrs : List WParam) (meths : List WParam)
  | method (full_qualname : String) (empty : Bool) (is_bounded : Bool)
      (params : List WParam) (returns : Option WParam)
  | generic (full_qualname : String) (empty : Bool) (is_builtin : Bool)
      (args : List WParam)

/-- A hint slot: either a `BaseUMLObjectRef` (by qualified name) or a
directly held `UMLObject`. -/
inductive Hint : Type where
  | ref (full_qualname : String)
  | obj (o : UMLObject)

/-- `BaseUMLParam` / `BaseUMLMember`: a wrapper of a qualified name and a
hint.  A member's visibility mode is derived from the name (see
`memberMode`), exactly as `BaseUMLMember.__infer_mode` does. -/
inductive WParam : Type where
  | mk (full_qualname : String) (hint : Hint)
end

/-- The wrapped name of a `WParam`. -/
def WParam.fq : WParam → String
  | .mk q _ => q

/-- The hint of a `WParam`. -/
def WParam.hint : WParam → Hint
  | .mk _ h => h

/-- `full_qualname` of a `UMLObject`. -/
def fqOf : UMLObject → String
  | .cls q _ _ _ _ _ => q
  | .method q _ _ _ _ => q
  | .generic q _ _ _ => q

/-- `empty` flag of a `UMLObject`. -/
def emptyOf : UMLObject → Bool
  | .cls _ e _ _ _ _ => e
  | .method _ e _ _ _ => e
  | .generic _ e _ _ => e

/-- `full_qualname` of a hint (both `BaseUMLObjectRef` and every
`BaseUMLObject` expose the attribute). -/
def hintFq : Hint → String
  | .ref q => q
  | .obj o => fqOf o

/-- `BaseUMLMember.__infer_mode`: visibility from the leading underscores of
the part after the last `::`. -/
def memberMode (full_qualname : String) : UMLMemberMode :=
  let name := lastPart full_qualname "::"
  if pyStartsWith name "_" then
    if pyStartsWith name "__" then .priv else .prot
  else .pub

/-- A Python `BaseUMLObjectRef` value: its qualified name plus the
allocation id standing for object identity. -/
structure UMLObjRef where
  full_qualname : String
  refId : Nat
deriving DecidableEq, Repr

/-- `BaseUMLSpace`: name, scope limit, docs flag, the `refs` and `objs`
dicts, and the allocation counter modelling ref identity. -/
structure UMLSpace where
  name : String := ""
  limit_fqn : String := ""
  include_docs : Bool := false
  refs : List (String × Nat) := []
  objs : List (String × UMLObject) := []
  nextRefId : Nat := 0

/-- `BaseUMLSpace.register` (base.py:999-1024): raises `KeyError` when the
qualified name is already materialized in `objs`, otherwise creates a fresh
`BaseUMLObjectRef`, stores it in `refs` (overwriting any previous one) and
returns it. -/
def register (s : UMLSpace) (full_qualname : String) :
    Except String (UMLObjRef × UMLSpace) :=
  if dmem s.objs full_qualname then
    .error ("KeyError: " ++ full_qualname ++ " is already added to the UML space")
  else
    let ref : UMLObjRef := ⟨full_qualname, s.nextRefId⟩
    .ok (ref, { s with
      refs := dset s.refs full_qualname ref.refId,
      nextRefId := s.nextRefId + 1 })

/-- `BaseUMLSpace.add_item` (base.py:1026-1050): stores the object in
`objs` first, then either fetches the pre-existing ref or calls `register`
for the same qualified name (the `TypeError` guard on non-`UMLObject`
inputs is enforced by typing here). -/
def add_item (s : UMLSpace) (item : UMLObject) :
    Except String (UMLObjRef × UMLSpace) :=
  let s1 := { s with objs := dset s.objs (fqOf item) item }
  if ¬ dmem s1.refs (fqOf item) then
    register s1 (fqOf item)
  else
    .ok (⟨fqOf item, (dget s1.refs (fqOf item)).getD 0⟩, s1)

/-- `BaseUMLObjectRef.get` (base.py:920-933): resolve a qualified name to
the materialized object, raising `KeyError` when absent. -/
def refGet (s : UMLSpace) (full_qualname : String) : Except String UMLObject :=
  match dget s.objs full_qualname with
  | none => .error ("KeyError: " ++ full_qualname ++ " is not found")
  | some o => .ok o

/-! ## C4: `register` fails exactly on materialized names -/

/-- C4: `register(q)` fails (with the `KeyError` standing for
`DuplicateRegistration`) if and only if `q` already has a materialized node
in `objs`; in particular a merely-referenced or absent name never makes it
fail. -/
theorem register_fails_iff_materialized (s : UMLSpace) (q : String) :
    (∃ r s', register s q = .ok (r, s')) ↔ dmem s.objs q = false := by
  unfold register
  by_cases h : dmem s.objs q
  · simp [h]
  · simp [h]

/-- Witness for C4: on the empty space, `register` succeeds. -/
theorem register_fails_iff_materialized_witness :
    ∃ r s', register ({} : UMLSpace) "pkg.A" = .ok (r, s') :=
  (register_fails_iff_materialized ({} : UMLSpace) "pkg.A").mpr rfl

/-! ## C2: `register` is *not* idempotent before materialization -/

/-- C2 counterexample: registering the same unmaterialized name twice
returns two *distinct* `BaseUMLObjectRef` objects (fresh allocation ids),
the second replacing the first in `refs` — not the same Reference. -/
theorem register_second_call_new_ref_counterexample :
    register ({} : UMLSpace) "pkg.A" =
      .ok (⟨"pkg.A", 0⟩, { refs := [("pkg.A", 0)], nextRefId := 1 }) ∧
    register { refs := [("pkg.A", 0)], nextRefId := 1 } "pkg.A" =
      .ok (⟨"pkg.A", 1⟩, { refs := [("pkg.A", 1)], nextRefId := 2 }) ∧
    (⟨"pkg.A", 0⟩ : UMLObjRef) ≠ (⟨"pkg.A", 1⟩ : UMLObjRef) :=
  ⟨rfl, rfl, by decide⟩

/-- C2 amended: before materialization a second `register(q)` does not fail
and returns a *newly created* Reference carrying the same qualified name,
which replaces the stored one; the two references are distinct objects. -/
theorem register_second_call_fresh (s : UMLSpace) (q : String)
    (h : dmem s.objs q = false) :
    ∃ r1 s1 r2 s2, register s q = .ok (r1, s1) ∧ register s1 q = .ok (r2, s2) ∧
      r1.full_qualname = q ∧ r2.full_qualname = q ∧ r1 ≠ r2 ∧
      dget s2.refs q = some r2.refId := by
  have h1 : register s q = .ok (⟨q, s.nextRefId⟩,
      { s with refs := dset s.refs q s.nextRefId, nextRefId := s.nextRefId + 1 }) := by
    unfold register
    simp [h]
  have h2 : register
      { s with refs := dset s.refs q s.nextRefId, nextRefId := s.nextRefId + 1 } q =
      .ok (⟨q, s.nextRefId + 1⟩,
        { s with refs := dset (dset s.refs q s.nextRefId) q (s.nextRefId + 1),
                 nextRefId := s.nextRefId + 2 }) := by
    unfold register
    simp [h]
  refine ⟨_, _, _, _, h1, h2, rfl, rfl, ?_, ?_⟩
  · intro hc
    have : s.nextRefId = s.nextRefId + 1 := congrArg UMLObjRef.refId hc
    omega
  · simp

/-- Witness for the amended C2 on a concrete space. -/
theorem register_second_call_fresh_witness :
    ∃ r1 s1 r2 s2,
      register ({} : UMLSpace) "pkg.A" = .ok (r1, s1) ∧
      register s1 "pkg.A" = .ok (r2, s2) ∧
      r1.full_qualname = "pkg.A" ∧ r2.full_qualname = "pkg.A" ∧ r1 ≠ r2 ∧
      dget s2.refs "pkg.A" = some r2.refId :=
  register_second_call_fresh ({} : UMLSpace) "pkg.A" rfl

/-! ## C3: `add_item` fails whenever no reference pre-exists -/

/-- C3: `add_item` stores the node *before* calling `register`, so in the
"no reference exists yet" case the nested `register` call sees the
qualified name already in `objs` and raises `KeyError` — `add_item` always
fails in exactly the case the spec says it must create the reference. -/
theorem add_item_unregistered_fails (s : UMLSpace) (o : UMLObject)
    (h : dmem s.refs (fqOf o) = false) :
    add_item s o =
      .error ("KeyError: " ++ fqOf o ++ " is already added to the UML space") := by
  unfold add_item register
  simp [h]

/-- Witness for C3: evaluating `add_item` at the failing input (fresh
space, class node `pkg.A`, no reference registered) yields the KeyError. -/
theorem add_item_unregistered_fails_witness :
    add_item ({} : UMLSpace) (.cls "pkg.A" false false [] [] []) =
      .error ("KeyError: " ++ "pkg.A" ++ " is already added to the UML space") :=
  add_item_unregistered_fails ({} : UMLSpace) (.cls "pkg.A" false false [] [] []) rfl

/-! ## Relation synthesis (base.py:1052-1269)

All functions are fuelled: Python relies on native call-stack recursion, and
fuel exhaustion models a `RecursionError`.  Every recursive call uses the
decremented fuel. -/

mutual
/-- `BaseUMLSpace.__gen_wrapped_rels` (base.py:1178-1240): relations induced
by one wrapped param/member.  An unresolvable reference hint is silently
skipped (`except KeyError: return relations`). -/
def gen_wrapped_rels (fuel : Nat) (s : UMLSpace) (w : WParam) (source : String) :
    Except String (List UMLRelation) :=
  match fuel with
  | 0 => .error "RecursionError"
  | fuel + 1 =>
    let source := if source = "" then w.fq else source
    match w.hint with
    | .ref q =>
      match dget s.objs q with
      | none => .ok []
      | some hint_obj => gen_wrapped_core fuel s w source hint_obj
    | .obj o => gen_wrapped_core fuel s w source o

/-- The branch on the resolved `hint_obj` inside `__gen_wrapped_rels`
(base.py:1199-1240).  Note that in the bounded-method and builtin-generic
branches the source passes `obj.hint` — the possibly unresolved reference —
into the recursive helper, which would fail reading `is_bounded` /
`is_builtin` off a `BaseUMLObjectRef`. -/
def gen_wrapped_core (fuel : Nat) (s : UMLSpace) (w : WParam) (source : String)
    (hint_obj : UMLObject) : Except String (List UMLRelation) :=
  match fuel with
  | 0 => .error "RecursionError"
  | fuel + 1 =>
    match hint_obj with
    | .cls _ _ _ _ _ _ => .ok [⟨source, hintFq w.hint, .dependency⟩]
    | .method _ _ is_bounded _ _ =>
      if ¬ is_bounded then
        .ok [⟨source, hintFq w.hint, .dependency⟩]
      else
        match w.hint with
        | .obj m => gen_method_rels fuel s m source
        | .ref _ => .error "AttributeError: UMLObjectRef has no attribute is_bounded"
    | .generic _ _ is_builtin _ =>
      if is_builtin then
        if source = "" then
          .error "ValueError: Cannot extract built-in type generic's UMLRelation without designated source"
        else
          match w.hint with
          | .obj g => gen_generic_rels fuel s g source
          | .ref _ => .error "AttributeError: UMLObjectRef has no attribute is_builtin"
      else
        .ok [⟨source, hintFq w.hint, .dependency⟩]

/-- `BaseUMLSpace.__gen_method_rels` (base.py:1116-1147).  For an unbounded
method the params/returns are wrapped with *no* source (their own qualified
names become sources); for a bounded method the designated source is
threaded through.  Matching a non-method models the `AttributeError` Python
would raise reading `is_bounded`. -/
def gen_method_rels (fuel : Nat) (s : UMLSpace) (obj : UMLObject) (source : String) :
    Except String (List UMLRelation) :=
  match fuel with
  | 0 => .error "RecursionError"
  | fuel + 1 =>
    let source := if source = "" then fqOf obj else source
    match obj with
    | .method _ _ is_bounded params returns =>
      if ¬ is_bounded then do
        let a ← gen_wrapped_list fuel s params ""
        let b ← match returns with
          | none => .ok ([] : List UMLRelation)
          | some r => gen_wrapped_rels fuel s r ""
        .ok (a ++ b)
      else
        if source = "" then
          .error "ValueError: Cannot extract bounded method's UMLRelation without designated source"
        else do
          let a ← gen_wrapped_list fuel s params source
          let b ← match returns with
            | none => .ok ([] : List UMLRelation)
            | some r => gen_wrapped_rels fuel s r source
          .ok (a ++ b)
    | _ => .error "AttributeError: object has no attribute is_bounded"

/-- `BaseUMLSpace.__gen_generic_rels` (base.py:1149-1176). -/
def gen_generic_rels (fuel : Nat) (s : UMLSpace) (obj : UMLObject) (source : String) :
    Except String (List UMLRelation) :=
  match fuel with
  | 0 => .error "RecursionError"
  | fuel + 1 =>
    match obj with
    | .generic gfq _ is_builtin args =>
      if ¬ is_builtin then
        if source = "" then
          gen_wrapped_list fuel s args gfq
        else
          .ok [⟨source, gfq, .dependency⟩]
      else
        if source = "" then
          .error "ValueError: Cannot extract built-in type generic's UMLRelation without designated source"
        else
          gen_wrapped_list fuel s args source
    | _ => .error "AttributeError: object has no attribute is_builtin"

/-- Sequential `relations.extend(...)` over a list of wrapped params, as the
`for` loops of base.py do. -/
def gen_wrapped_list (fuel : Nat) (s : UMLSpace) (ws : List WParam) (source : String) :
    Except String (List UMLRelation) :=
  match fuel with
  | 0 => .error "RecursionError"
  | fuel + 1 =>
    match ws with
    | [] => .ok []
    | w :: rest => do
      let a ← gen_wrapped_rels fuel s w source
      let b ← gen_wrapped_list fuel s rest source
      .ok (a ++ b)

/-- The ancestors loop of `__gen_class_rels` (base.py:1055-1076): resolve
each ancestor (skipping unresolvable references), then emit Implementation
or Inheritance towards the *resolved* object's qualified name. -/
def gen_ancestor_rels (fuel : Nat) (s : UMLSpace) (cls_fq : String) (ancs : List Hint) :
    Except String (List UMLRelation) :=
  match fuel with
  | 0 => .error "RecursionError"
  | fuel + 1 =>
    match ancs with
    | [] => .ok []
    | h :: rest => do
      let more ← gen_ancestor_rels fuel s cls_fq rest
      match h with
      | .ref q =>
        match dget s.objs q with
        | none => .ok more
        | some a =>
          match a with
          | .cls afq _ is_interface _ _ _ =>
            .ok (⟨cls_fq, afq,
              if is_interface then .implementation else .inheritance⟩ :: more)
          | _ => .error "AttributeError: object has no attribute is_interface"
      | .obj a =>
        match a with
        | .cls afq _ is_interface _ _ _ =>
          .ok (⟨cls_fq, afq,
            if is_interface then .implementation else .inheritance⟩ :: more)
        | _ => .error "AttributeError: object has no attribute is_interface"

/-- `BaseUMLSpace.__gen_class_rels` (base.py:1052-1114): ancestor edges,
then per-attribute and per-method edges.  The source then computes the
converged list into `new_rels` (see `convergeRels` below) **but returns the
unconverged `relations`**, so the converged value is discarded. -/
def gen_class_rels (fuel : Nat) (s : UMLSpace) (obj : UMLObject) :
    Except String (List UMLRelation) :=
  match fuel with
  | 0 => .error "RecursionError"
  | fuel + 1 =>
    match obj with
    | .cls fq _ _ ancs attrs meths => do
      let ancRels ← gen_ancestor_rels fuel s fq ancs
      let attrRels ← gen_wrapped_list fuel s attrs ""
      let methRels ← gen_wrapped_list fuel s meths ""
      .ok (ancRels ++ attrRels ++ methRels)
    | _ => .error "AttributeError: object has no attribute ancestors"

/-- `BaseUMLSpace.gen_relations` (base.py:1242-1269): per-object dispatch
over `objs` in insertion order (methods and generics are reached with no
designated source). -/
def gen_relations_list (fuel : Nat) (s : UMLSpace)
    (entries : List (String × UMLObject)) : Except String (List UMLRelation) :=
  match fuel with
  | 0 => .error "RecursionError"
  | fuel + 1 =>
    match entries with
    | [] => .ok []
    | (_, o) :: rest => do
      let rels ←
        match o with
        | .cls _ _ _ _ _ _ => gen_class_rels fuel s o
        | .method _ _ _ _ _ => gen_method_rels fuel s o ""
        | .generic _ _ _ _ => gen_generic_rels fuel s o ""
      let more ← gen_relations_list fuel s rest
      .ok (rels ++ more)
end

/-- Entry point `gen_relations` over a space. -/
def gen_relations (fuel : Nat) (s : UMLSpace) : Except String (List UMLRelation) :=
  gen_relations_list fuel s s.objs

/-- The convergence pass of `__gen_class_rels` (base.py:1090-1112): group
the generated relations by target (in first-seen order); a group of more
than one collapses to a single Dependency edge sourced at the class, a
singleton group is kept unchanged.  The source computes exactly this value
into `new_rels` and then discards it by returning `relations` instead. -/
def convergeRels (cls_fq : String) (rels : List UMLRelation) : List UMLRelation :=
  let targets := rels.foldl (fun acc r =>
    match dget acc r.target with
    | some g => dset acc r.target (g ++ [r])
    | none => dset acc r.target [r]) []
  targets.foldr (fun p acc =>
    (if p.2.length > 1 then [⟨cls_fq, p.1, .dependency⟩] else p.2) ++ acc) []

/-! ## C1: the convergence pass is computed but its result discarded -/

/-- Scenario for C1: class `pkg.A` with three members `x`, `y`, `z`, all
hinted at the materialized non-placeholder class `pkg.C`. -/
def c1A : UMLObject :=
  .cls "pkg.A" false false []
    [⟨"pkg.A::x", .ref "pkg.C"⟩, ⟨"pkg.A::y", .ref "pkg.C"⟩, ⟨"pkg.A::z", .ref "pkg.C"⟩]
    []

/-- The materialized target class `pkg.C` of the C1 scenario. -/
def c1C : UMLObject := .cls "pkg.C" false false [] [] []

/-- The C1 space holding both classes. -/
def c1Space : UMLSpace :=
  { objs := [("pkg.A", c1A), ("pkg.C", c1C)],
    refs := [("pkg.A", 0), ("pkg.C", 1)],
    nextRefId := 2 }

/-- C1: with three members of `pkg.A` all hinted at the same materialized
class `pkg.C`, relation synthesis returns THREE Dependency edges (one per
member, sourced at the member qualified names) — not the single collapsed
`pkg.A --> pkg.C` edge the claim states — because `__gen_class_rels`
returns the unconverged `relations` while the converged `new_rels` (whose
value is exactly the single claimed edge, as the second conjunct shows) is
discarded. -/
theorem gen_relations_returns_unconverged :
    gen_relations 20 c1Space =
      .ok [⟨"pkg.A::x", "pkg.C", .dependency⟩,
           ⟨"pkg.A::y", "pkg.C", .dependency⟩,
           ⟨"pkg.A::z", "pkg.C", .dependency⟩] ∧
    convergeRels "pkg.A"
      [⟨"pkg.A::x", "pkg.C", .dependency⟩,
       ⟨"pkg.A::y", "pkg.C", .dependency⟩,
       ⟨"pkg.A::z", "pkg.C", .dependency⟩] =
      [⟨"pkg.A", "pkg.C", .dependency⟩] :=
  ⟨rfl, rfl⟩

/-! ## Rendering (base.py:388-588, 673-808, 851-854, 1274-1290)

String templates are expanded inline; `\x7b`/`\x7d` are the literal braces
of the PlantUML block templates. -/

/-- Python `': '.join(xs.split(': ')[:-1])`: drop the part after the last
`": "` separator. -/
def dropLastPart (s sep : String) : String :=
  String.intercalate sep (pySplit s sep).dropLast

mutual
/-- `BaseUMLParam.to_puml` (base.py:673-750).  When the hint is an
unresolvable reference the bare qualified name is rendered (`except
KeyError`).  A resolved generic with an empty argument list, or a method
hint with `returns = None`, makes the function raise — `hint` is only
assigned under `if args:` and `self.returns.to_puml()` is called
unconditionally. -/
def param_to_puml (fuel : Nat) (s : UMLSpace) (w : WParam) : Except String String :=
  match fuel with
  | 0 => .error "RecursionError"
  | fuel + 1 =>
    let name := lastPart (lastPart w.fq ".") "::"
    match w.hint with
    | .ref q =>
      match dget s.objs q with
      | none => .ok (hintFq w.hint ++ ": " ++ name)
      | some hint_obj => param_branches fuel s w name hint_obj
    | .obj o => param_branches fuel s w name o

/-- The branch on the resolved `hint_obj` inside `BaseUMLParam.to_puml`
(base.py:699-750). -/
def param_branches (fuel : Nat) (s : UMLSpace) (w : WParam) (name : String)
    (hint_obj : UMLObject) : Except String String :=
  match fuel with
  | 0 => .error "RecursionError"
  | fuel + 1 =>
    match hint_obj with
    | .cls _ _ _ _ _ _ =>
      .ok (lastPart (hintFq w.hint) "." ++ ": " ++ name)
    | .method _ _ _ params returns => do
      let sigs ← param_sig_list fuel s params
      let ret ←
        match returns with
        | none => .error "AttributeError: NoneType object has no attribute to_puml"
        | some r => param_to_puml fuel s r
      let hint :=
        if sigs ≠ [] then name ++ "(" ++ String.intercalate ", " sigs ++ ")"
        else name ++ "()"
      let name := if strContains ret ": " then dropLastPart ret ": " else ret
      .ok (hint ++ ": " ++ name)
    | .generic gfq _ _ args => do
      let hint_name := lastPart gfq "."
      let rendered ← param_arg_list fuel s args
      if rendered ≠ [] then
        .ok (hint_name ++ "[" ++ String.intercalate ", " rendered ++ "]" ++ ": " ++ name)
      else
        .error "UnboundLocalError: local variable hint referenced before assignment"

/-- The signatures loop of the method branch (base.py:707-716): render each
param and swap the `name`/`hint` parts around the last `": "`. -/
def param_sig_list (fuel : Nat) (s : UMLSpace) (ps : List WParam) :
    Except String (List String) :=
  match fuel with
  | 0 => .error "RecursionError"
  | fuel + 1 =>
    match ps with
    | [] => .ok []
    | p :: rest => do
      let sig_uml ← param_to_puml fuel s p
      let sig_name := lastPart sig_uml ": "
      let sig_hint := dropLastPart sig_uml ": "
      let more ← param_sig_list fuel s rest
      .ok ((sig_name ++ ": " ++ sig_hint) :: more)

/-- The argument loop of the generic branch (base.py:738-745): render each
argument and discard its name part. -/
def param_arg_list (fuel : Nat) (s : UMLSpace) (args : List WParam) :
    Except String (List String) :=
  match fuel with
  | 0 => .error "RecursionError"
  | fuel + 1 =>
    match args with
    | [] => .ok []
    | a :: rest => do
      let arg_uml ← param_to_puml fuel s a
      let more ← param_arg_list fuel s rest
      .ok (dropLastPart arg_uml ": " :: more)
end

/-- `BaseUMLMember.to_puml` (base.py:786-808): the member mode symbol
prepended to the param rendering. -/
def member_to_puml (fuel : Nat) (s : UMLSpace) (w : WParam) : Except String String := do
  let param_uml ← param_to_puml fuel s w
  .ok ((memberMode w.fq).val ++ " " ++ param_uml)

/-- Render a `"\t"`-prefixed member line per entry, as the attribute and
method loops of `BaseUMLClass.to_puml` do (base.py:404-414). -/
def member_line_list (fuel : Nat) (s : UMLSpace) (ws : List WParam) :
    Except String (List String) :=
  match ws with
  | [] => .ok []
  | w :: rest => do
    let line ← member_to_puml fuel s w
    let more ← member_line_list fuel s rest
    .ok (("\t" ++ line) :: more)

/-- Render a `"\t"`-prefixed param line per entry, as the params loop of
`BaseUMLMethod.to_puml` does (base.py:502). -/
def param_line_list (fuel : Nat) (s : UMLSpace) (ws : List WParam) :
    Except String (List String) :=
  match ws with
  | [] => .ok []
  | w :: rest => do
    let line ← param_to_puml fuel s w
    let more ← param_line_list fuel s rest
    .ok (("\t" ++ line) :: more)

/-- Render the `"\t"`-prefixed, name-stripped argument lines of
`BaseUMLGeneric.to_puml` (base.py:576-581). -/
def generic_arg_line_list (fuel : Nat) (s : UMLSpace) (ws : List WParam) :
    Except String (List String) :=
  match ws with
  | [] => .ok []
  | w :: rest => do
    let arg_uml ← param_to_puml fuel s w
    let more ← generic_arg_line_list fuel s rest
    .ok (("\t" ++ dropLastPart arg_uml ": ") :: more)

/-- The block rendering of one materialized object:
`BaseUMLClass.to_puml` (base.py:388-422), `BaseUMLMethod.to_puml`
(base.py:491-509) and `BaseUMLGeneric.to_puml` (base.py:562-588). -/
def obj_to_puml (fuel : Nat) (s : UMLSpace) (o : UMLObject) : Except String String :=
  match o with
  | .cls fq _ is_interface _ attrs meths => do
    let class_type := if is_interface then "Interface" else "Class"
    let attrLines ← member_line_list fuel s attrs
    let methLines ← member_line_list fuel s meths
    .ok (class_type ++ " " ++ fq ++ " \x7b\n" ++
      String.intercalate "\n" attrLines ++ "\n" ++
      String.intercalate "\n" methLines ++ "\n\x7d")
  | .method fq _ _ params returns => do
    let paramLines ← param_line_list fuel s params
    let retLine ←
      match returns with
      | none => .error "AttributeError: NoneType object has no attribute to_puml"
      | some r => param_to_puml fuel s r
    .ok ("Class " ++ fq ++ " << Method >> \x7b\n" ++
      String.intercalate "\n" paramLines ++ "\n" ++
      ("\t" ++ retLine) ++ "\n\x7d")
  | .generic fq _ _ args => do
    let raw_type := lastPart fq "."
    let argLines ← generic_arg_line_list fuel s args
    .ok ("Class " ++ fq ++ " << " ++ raw_type ++ " >> \x7b\n" ++
      String.intercalate "\n" argLines ++ "\n\x7d")

/-- `BaseUMLRelation.to_puml` (base.py:851-854). -/
def relation_to_puml (r : UMLRelation) : String :=
  r.source ++ " " ++ r.relation.val ++ " " ++ r.target

/-- The non-empty filter of `BaseUMLSpace.to_puml` (base.py:1276): the
surviving node dict after discarding placeholder (`empty`) objects. -/
def survivors (s : UMLSpace) : List (String × UMLObject) :=
  s.objs.filter (fun p => !(emptyOf p.2))

/-- The relation list of `BaseUMLSpace.to_puml` (base.py:1279-1282):
generated on the pruned space, then restricted to relations whose source
and target are both surviving nodes (`r.source in self.objs`, which after
the line-1276 reassignment is the filtered dict `survivors s`). -/
def finalRels (fuel : Nat) (s : UMLSpace) : Except String (List UMLRelation) :=
  (gen_relations fuel { s with objs := survivors s }).map
    (List.filter (fun r => dmem (survivors s) r.source && dmem (survivors s) r.target))

/-- The per-object loop of base.py:1287 rendering one block per entry. -/
def obj_block_list (fuel : Nat) (s1 : UMLSpace) :
    List (String × UMLObject) → Except String (List String)
  | [] => .ok []
  | (_, o) :: rest =>
    match obj_to_puml fuel s1 o with
    | .error e => .error e
    | .ok b =>
      match obj_block_list fuel s1 rest with
      | .error e => .error e
      | .ok more => .ok (b :: more)

/-- One block per surviving object (base.py:1287), rendered against the
pruned space. -/
def space_blocks (fuel : Nat) (s : UMLSpace) : Except String (List String) :=
  obj_block_list fuel { s with objs := survivors s } (survivors s)

/-- `BaseUMLSpace.to_puml` (base.py:1274-1290).  The reassignment of
`self.objs` happens before anything can fail, so the returned space is the
pruned one even when rendering raises. -/
def space_to_puml (fuel : Nat) (s : UMLSpace) : Except String String × UMLSpace :=
  let s1 := { s with objs := survivors s }
  let result : Except String String := do
    let rels ← finalRels fuel s
    let items ← space_blocks fuel s
    .ok ("@startuml\t" ++ s1.name ++ "\n" ++
      String.intercalate "\n" items ++ "\n" ++
      String.intercalate "\n" (rels.map relation_to_puml) ++ "\n@enduml\n")
  (result, s1)

/-! ## C6: rendered blocks and relations respect the surviving node set -/

theorem obj_block_list_length (fuel : Nat) (s1 : UMLSpace)
    (l : List (String × UMLObject)) (out : List String)
    (h : obj_block_list fuel s1 l = .ok out) : out.length = l.length := by
  induction l generalizing out with
  | nil =>
    simp only [obj_block_list] at h
    cases h
    rfl
  | cons hd tl ih =>
    obtain ⟨k, o⟩ := hd
    simp only [obj_block_list] at h
    cases hb : obj_to_puml fuel s1 o with
    | error e => rw [hb] at h; cases h
    | ok b =>
      rw [hb] at h
      cases hr : obj_block_list fuel s1 tl with
      | error e => rw [hr] at h; cases h
      | ok more =>
        rw [hr] at h
        cases h
        simp [ih more hr]

/-- C6: whenever `to_puml`'s relation pass succeeds, every surviving
relation has both endpoints inside the surviving (non-placeholder) node
set; the surviving set contains no placeholder (`empty`) node; and the
block pass renders exactly one block per surviving node. -/
theorem render_respects_survivors (fuel : Nat) (s : UMLSpace)
    (rels : List UMLRelation) (bs : List String)
    (h1 : finalRels fuel s = .ok rels) (h2 : space_blocks fuel s = .ok bs) :
    (∀ r ∈ rels, dmem (survivors s) r.source = true ∧ dmem (survivors s) r.target = true) ∧
    (∀ p ∈ survivors s, emptyOf p.2 = false) ∧
    bs.length = (survivors s).length := by
  refine ⟨?_, ?_, ?_⟩
  · intro r hr
    unfold finalRels at h1
    cases hg : gen_relations fuel { s with objs := survivors s } with
    | error e => rw [hg] at h1; simp [Except.map] at h1
    | ok rels0 =>
      rw [hg] at h1
      simp only [Except.map] at h1
      cases h1
      have hmem := (List.mem_filter.mp hr).2
      simpa [Bool.and_eq_true] using hmem
  · intro p hp
    have hmem := (List.mem_filter.mp hp).2
    simpa using hmem
  · unfold space_blocks at h2
    exact obj_block_list_length fuel _ _ bs h2

/-- C6 scenario for the witness: a placeholder class `pkg.P` and a real
class `pkg.B` in one space. -/
def c6Space : UMLSpace :=
  { objs := [("pkg.P", .cls "pkg.P" true false [] [] []),
             ("pkg.B", .cls "pkg.B" false false [] [] [])],
    refs := [("pkg.P", 0), ("pkg.B", 1)],
    nextRefId := 2 }

/-- Witness for C6 at the concrete two-node space (the placeholder is
pruned; one block is rendered for `pkg.B` and no relations survive). -/
theorem render_respects_survivors_witness :
    (∀ r ∈ ([] : List UMLRelation),
      dmem (survivors c6Space) r.source = true ∧ dmem (survivors c6Space) r.target = true) ∧
    (∀ p ∈ survivors c6Space, emptyOf p.2 = false) ∧
    (["Class pkg.B \x7b\n\n\n\x7d"] : List String).length = (survivors c6Space).length :=
  render_respects_survivors 20 c6Space [] ["Class pkg.B \x7b\n\n\n\x7d"] (by decide) (by decide)

/-! ## C10: rendering mutates the space -/

theorem dget_filter_nonempty (l : List (String × UMLObject)) (k : String) (o : UMLObject)
    (h : dget (l.filter (fun p => !(emptyOf p.2))) k = some o) : emptyOf o = false := by
  induction l with
  | nil => simp [dget] at h
  | cons hd tl ih =>
    obtain ⟨k', v⟩ := hd
    by_cases hv : emptyOf v = false
    · rw [List.filter_cons_of_pos (by simp [hv])] at h
      unfold dget at h
      by_cases hk : k' = k
      · rw [if_pos hk] at h
        cases h
        exact hv
      · rw [if_neg hk] at h
        exact ih h
    · rw [List.filter_cons_of_neg (by simpa using hv)] at h
      exact ih h

/-- C10: `to_puml` reassigns the space's node map to the non-empty subset
before formatting: after any render the stored `objs` equal the filtered
map, every subsequent lookup sees only non-placeholder nodes, and a second
render finds the already-pruned (stable) state. -/
theorem to_puml_prunes_space (fuel : Nat) (s : UMLSpace) :
    (space_to_puml fuel s).2.objs = s.objs.filter (fun p => !(emptyOf p.2)) ∧
    (∀ q o, dget (space_to_puml fuel s).2.objs q = some o → emptyOf o = false) ∧
    survivors (space_to_puml fuel s).2 = (space_to_puml fuel s).2.objs := by
  refine ⟨rfl, ?_, ?_⟩
  · intro q o h
    exact dget_filter_nonempty s.objs q o h
  · show survivors { s with objs := survivors s } = survivors s
    simp [survivors, List.filter_filter]

/-! ## C9: `BaseUMLParam.to_puml` can raise -/

/-- C9: rendering a param/member wrapper is NOT total.  A method hint with
`returns = None` (as built by `__extract_method` for a bound method without
annotations) hits `self.returns.to_puml()` and raises `AttributeError`; a
generic hint with an empty argument list leaves `hint` unassigned and
raises `UnboundLocalError`; only the unresolvable-reference fallback is
indeed non-raising. -/
theorem param_to_puml_can_raise :
    param_to_puml 10 ({} : UMLSpace)
        ⟨"pkg.A::m", .obj (.method "pkg.A.m" false true [] none)⟩ =
      .error "AttributeError: NoneType object has no attribute to_puml" ∧
    member_to_puml 10 ({} : UMLSpace)
        ⟨"pkg.A::m", .obj (.method "pkg.A.m" false true [] none)⟩ =
      .error "AttributeError: NoneType object has no attribute to_puml" ∧
    param_to_puml 10 ({} : UMLSpace)
        ⟨"pkg.f::x", .obj (.generic "pkg.G" true false [])⟩ =
      .error "UnboundLocalError: local variable hint referenced before assignment" ∧
    param_to_puml 10 ({} : UMLSpace) ⟨"pkg.A::x", .ref "pkg.Missing"⟩ =
      .ok "pkg.Missing: x" :=
  ⟨by decide, by decide, by decide, by decide⟩

/-! ## The reflected raw world (the Reflectable Object Provider)

Raw Python entities seen through `inspect` are modelled by a table
(`World`) of class / function / generic / module records addressed by id,
so that mutually referencing classes are expressible.  Flags such as
`is_protocol` stand for the runtime checks (`issubclass(raw, Protocol)`,
`raw._is_protocol`) the source performs on live objects. -/

/-- A raw entity handle as passed around by `extractor.py`. -/
inductive Raw where
  | cls (id : Nat)
  | meth (id : Nat)
  | module (id : Nat)
  | generic (id : Nat)
  | strLit (s : String)
  | fwd (name : String)
  | noneR
  | anyR
deriving DecidableEq, Repr

/-- The classification outcome `rtypes.check_raw_type` reaches for a
generic object (`__name__`+`__args__`, `types.UnionType`, or the TypeVar
attribute probes). -/
inductive GKind where
  | named
  | union
  | typevar
deriving DecidableEq, Repr

/-- A raw class record (`__module__`, `__name__`, `__qualname__`,
`__bases__`, `__annotations__`, and the callable members seen via
`dir`/`getattr`). -/
structure RawClass where
  module : String
  name : String
  qualname : String
  is_builtin : Bool
  is_protocol : Bool
  bases : List Raw
  annots : List (String × Raw)
  dirMembers : List (String × Raw)

/-- A raw function/method record. -/
structure RawMethod where
  module : String
  qualname : String
  is_builtin : Bool
  annots : List (String × Raw)

/-- A raw generic/typevar record (`__args__`, `__constraints__`,
`__bound__`). -/
structure RawGeneric where
  module : String
  name : String
  gkind : GKind
  is_builtin : Bool
  args : List Raw
  constraints : List Raw
  bound : List Raw

/-- A raw module record (`__name__`, `get_type_hints(module)`, and the
`dir`/`getattr` members). -/
structure RawModule where
  name : String
  consts : List (String × Raw)
  members : List (String × Raw)

/-- The reflected universe. -/
structure World where
  classes : List RawClass := []
  meths : List RawMethod := []
  generics : List RawGeneric := []
  modules : List RawModule := []

/-- Table lookup for a class handle; anything else models the
`AttributeError` Python raises when class attributes are read off a
non-class. -/
def rawClassOf (w : World) : Raw → Except String RawClass
  | .cls id =>
    match w.classes.get? id with
    | some c => .ok c
    | none => .error "AttributeError: dangling class id"
  | _ => .error "AttributeError: object has no class attributes"

/-- Table lookup for a function handle. -/
def rawMethodOf (w : World) : Raw → Except String RawMethod
  | .meth id =>
    match w.meths.get? id with
    | some m => .ok m
    | none => .error "AttributeError: dangling function id"
  | _ => .error "AttributeError: object has no function attributes"

/-- Table lookup for a generic handle. -/
def rawGenericOf (w : World) : Raw → Except String RawGeneric
  | .generic id =>
    match w.generics.get? id with
    | some g => .ok g
    | none => .error "AttributeError: dangling generic id"
  | _ => .error "AttributeError: object has no generic attributes"

/-- Table lookup for a module handle. -/
def rawModuleOf (w : World) : Raw → Except String RawModule
  | .module id =>
    match w.modules.get? id with
    | some m => .ok m
    | none => .error "AttributeError: dangling module id"
  | _ => .error "AttributeError: object is not a module"

/-- Modelled from the spec: `pumlpy.utils.check_builtins` is referenced
throughout `extractor.py` and `impl/base.py` but its definition is not
under `src/` (the shipped `utils.py` holds an older inspector instead).
The spec treats builtin-ness as an opaque provider capability ("the entity
is itself a built-in/opaque type that is intentionally not expanded"), so
it is modelled as a flag carried by each raw record. -/
def check_builtins (w : World) : Raw → Bool
  | .cls id => (w.classes.get? id).elim false RawClass.is_builtin
  | .meth id => (w.meths.get? id).elim false RawMethod.is_builtin
  | .generic id => (w.generics.get? id).elim false RawGeneric.is_builtin
  | .module _ => false
  | .strLit _ => false
  | .fwd _ => false
  | .noneR => true
  | .anyR => false

/-- Python `raw.__module__` (instance lookup falls back to the type for the
literal-ish cases). -/
def moduleOf (w : World) : Raw → Except String String
  | .cls id => (rawClassOf w (.cls id)).map RawClass.module
  | .meth id => (rawMethodOf w (.meth id)).map RawMethod.module
  | .generic id => (rawGenericOf w (.generic id)).map RawGeneric.module
  | .module _ => .error "AttributeError: module object has no attribute __module__"
  | .strLit _ => .ok "builtins"
  | .fwd _ => .ok "typing"
  | .noneR => .ok "builtins"
  | .anyR => .ok "typing"

/-- Python `callable(raw)` (classes, functions and parameterized generics
define `__call__`). -/
def pyCallable : Raw → Bool
  | .cls _ => true
  | .meth _ => true
  | .generic _ => true
  | _ => false

/-- `rtypes.UMLType` (rtypes.py:18-67). -/
inductive UMLType where
  | CLASS
  | METHOD
  | MODULE
  | NAMED_GENERIC
  | FORWARD
  | NONE
  | ANY
  | TYPEVAR
  | TYPING_GENERIC
  | TYPING_UNION
  | TYPES_GENERIC
  | TYPES_UNION
deriving DecidableEq, Repr

/-- `rtypes.check_raw_type` (rtypes.py:70-120) over the provider model:
classes, functions and modules first; then generics by their structural
probes (encoded in `gkind`); forward references; `None`; the `Any`
sentinel; `ValueError` otherwise (a bare string lands here). -/
def check_raw_type (w : World) (raw : Raw) : Except String UMLType :=
  match raw with
  | .cls _ => .ok .CLASS
  | .meth _ => .ok .METHOD
  | .module _ => .ok .MODULE
  | .generic id =>
    match w.generics.get? id with
    | some g =>
      match g.gkind with
      | .named => .ok .NAMED_GENERIC
      | .union => .ok .TYPES_UNION
      | .typevar => .ok .TYPEVAR
    | none => .error "ValueError: Unknown object type"
  | .fwd _ => .ok .FORWARD
  | .noneR => .ok .NONE
  | .strLit _ => .error "ValueError: Unknown object type"
  | .anyR => .ok .ANY

/-- `rtypes.get_full_qualname` (rtypes.py:123-161). -/
def get_full_qualname (w : World) (raw : Raw) (rtype : UMLType) : Except String String :=
  match rtype with
  | .MODULE => (rawModuleOf w raw).map RawModule.name
  | .CLASS => (rawClassOf w raw).map (fun c => c.module ++ "." ++ c.qualname)
  | .METHOD => (rawMethodOf w raw).map (fun m => m.module ++ "." ++ m.qualname)
  | .NAMED_GENERIC => (rawGenericOf w raw).map (fun g => g.module ++ "." ++ g.name)
  | .TYPEVAR => (rawGenericOf w raw).map (fun g => g.module ++ "." ++ g.name)
  | .TYPES_UNION => .ok ("types" ++ "." ++ "Union")
  | .NONE => .ok "builtins.None"
  | .ANY => .ok "builtins.any"
  | _ => .error "NotImplementedError: cannot handle raw type"

/-! ## Constructor logic of the base UML models -/

/-- `BaseUMLClass.__init__` (base.py:280-383): builtin forces `empty`;
`is_interface` is the Protocol probe (skipped for `ANY` and builtins); a
non-empty class keeps its grouped members, which are iterated as
`PUBLIC ++ PROTECTED ++ PRIVATE` (the insertion order of the two dicts). -/
def mkBaseUMLClass (is_builtin is_protocol rtype_any : Bool) (fq : String)
    (empty : Bool) (ancs : List Hint) (pa pr pv pm prm pvm : List WParam) : UMLObject :=
  let empty := empty || is_builtin
  let is_interface := if rtype_any then false else (!is_builtin && is_protocol)
  if !empty && !is_builtin then
    .cls fq empty is_interface ancs (pa ++ pr ++ pv) (pm ++ prm ++ pvm)
  else
    .cls fq empty is_interface [] [] []

/-- `BaseUMLMethod.__init__` (base.py:440-486): `is_bounded` iff the
qualified name contains a dot; empty methods drop params and returns. -/
def mkBaseUMLMethod (qualname fq : String) (empty : Bool)
    (params : List WParam) (returns : Option WParam) : UMLObject :=
  let is_bounded := strContains qualname "."
  if !empty then .method fq empty is_bounded params returns
  else .method fq empty is_bounded [] none

/-- `BaseUMLGeneric.__init__` (base.py:526-557). -/
def mkBaseUMLGeneric (is_builtin : Bool) (fq : String) (empty : Bool)
    (args : List WParam) : UMLObject :=
  if !empty then .generic fq empty is_builtin args
  else .generic fq empty is_builtin []

/-! ## The extractor (extractor.py) -/

/-- The configuration of `BaseExtractor`. -/
structure ExtractorCfg where
  domain : String
  limit_fqn : String := ""
  max_depth : Nat := 3
  include_external : Bool := false

/-- The mutable traversal state of `BaseExtractor`: `working_domain`, the
`layer` counter, and the shared `UMLSpace`. -/
structure EState where
  working_domain : String
  layer : Nat := 0
  space : UMLSpace := {}

/-- The `"::"` trimming of `BaseExtractor.__init__` (extractor.py:191-192):
a limit containing `"::"` is cut down to `limit_fqn.split("::")[0]`.  The
trimmed limit must then start with the domain — i.e. the *domain* must be
a prefix of the limit — else `ValueError`. -/
def limit_trim (limit_fqn : String) : String :=
  if strContains limit_fqn "::" then (pySplit limit_fqn "::").headD limit_fqn
  else limit_fqn

/-- The `limit_fqn` validation of `BaseExtractor.__init__`
(extractor.py:189-196), applied to the trimmed limit. -/
def extractor_init_limit (domain limit_fqn : String) : Except String String :=
  if limit_fqn ≠ "" then
    if ¬ pyStartsWith (limit_trim limit_fqn) domain then
      .error "ValueError: limit_fqn must be a subset of the domain"
    else .ok (limit_trim limit_fqn)
  else .ok limit_fqn

/-- `BaseExtractor.__init__` (extractor.py:102-199): stores the config
(with the normalized limit) and initializes `layer = 0`,
`working_domain = domain`. -/
def baseExtractorInit (domain limit_fqn : String) (max_depth : Nat)
    (include_external : Bool) : Except String (ExtractorCfg × EState) :=
  (extractor_init_limit domain limit_fqn).map (fun lf =>
    ({ domain := domain, limit_fqn := lf, max_depth := max_depth,
       include_external := include_external },
     { working_domain := domain }))

/-- The heterogeneous result list of `inspect_package`: refs/objects for
plain members, and a nested *list* appended as one element for a
sub-package (`objs.append(self.inspect_package(...))`). -/
inductive PkgEntry where
  | item (h : Hint)
  | sub (entries : List PkgEntry)

mutual
/-- `BaseExtractor.extract` (extractor.py:201-254): dispatch on the raw
type.  A `MODULE` raw raises `TypeError` (the call at line 251 omits the
required `space` argument); a `TYPEVAR` falls through every branch into
the final `ValueError`. -/
def extract (fuel : Nat) (cfg : ExtractorCfg) (w : World) (raw : Raw)
    (rtype : UMLType) (st : EState) (next_layer : Bool) :
    Except String (Hint × EState) :=
  match fuel with
  | 0 => .error "RecursionError"
  | fuel + 1 =>
    match rtype with
    | .CLASS => inspect_class fuel cfg w raw rtype st next_layer
    | .ANY => inspect_class fuel cfg w raw rtype st next_layer
    | .METHOD => inspect_method fuel cfg w raw rtype st next_layer
    | .NAMED_GENERIC => inspect_generic fuel cfg w raw rtype st next_layer
    | .TYPES_UNION => inspect_generic fuel cfg w raw rtype st next_layer
    | .FORWARD => do
      let fname ←
        match raw with
        | .fwd n => .ok n
        | _ => .error "AttributeError: object has no attribute __forward_arg__"
      let m ←
        match w.modules.find? (fun m => m.name == st.working_domain) with
        | some m => .ok m
        | none => .error "ImportError: cannot import working domain"
      let raw' ←
        match dget m.members fname with
        | some r => .ok r
        | none => .error "AttributeError: module has no such member"
      let rtype' ← check_raw_type w raw'
      extract fuel cfg w raw' rtype' st next_layer
    | .NONE =>
      .ok (.obj (.cls "builtins.None" true false [] [] []), st)
    | .MODULE =>
      .error "TypeError: inspect_package() missing 1 required positional argument: space"
    | _ => .error "ValueError: Unsupported object type"

/-- `BaseExtractor.inspect_class` (extractor.py:353-423). -/
def inspect_class (fuel : Nat) (cfg : ExtractorCfg) (w : World) (raw : Raw)
    (rtype : UMLType) (st : EState) (next_layer : Bool) :
    Except String (Hint × EState) :=
  match fuel with
  | 0 => .error "RecursionError"
  | fuel + 1 =>
    let source_domain := st.working_domain
    let add_to_space := ¬ check_builtins w raw
    if rtype = .ANY then
      .ok (.obj (.cls "builtins.any" true false [] [] []), st)
    else do
      let rmod ← moduleOf w raw
      let st := { st with working_domain := rmod }
      let fq ← get_full_qualname w raw rtype
      if add_to_space then do
        let (ref_fq, st) ←
          if dmem st.space.refs fq then
            .ok (fq, st)
          else do
            let (r, sp) ← register st.space fq
            .ok (r.full_qualname, { st with space := sp })
        if next_layer then
          .ok (.ref ref_fq, { st with working_domain := source_domain })
        else do
          let empty := !(pyStartsWith rmod cfg.domain) && !cfg.include_external
          let (uml_class, st) ← extract_class fuel cfg w raw fq st empty
          let st ←
            if ¬ emptyOf uml_class then do
              let (_, sp) ← add_item st.space uml_class
              .ok { st with space := sp }
            else .ok st
          .ok (.ref ref_fq, { st with working_domain := source_domain })
      else do
        let empty := !(pyStartsWith rmod cfg.domain) && !cfg.include_external
        let (uml_class, st) ← extract_class fuel cfg w raw fq st empty
        .ok (.obj uml_class, { st with working_domain := source_domain })

/-- `BaseExtractor.__extract_class` (extractor.py:425-472). -/
def extract_class (fuel : Nat) (cfg : ExtractorCfg) (w : World) (raw : Raw)
    (fq : String) (st : EState) (empty : Bool) :
    Except String (UMLObject × EState) :=
  match fuel with
  | 0 => .error "RecursionError"
  | fuel + 1 => do
    let c ← rawClassOf w raw
    if ¬ empty then do
      let (ancs, st) ← extract_class_bases fuel cfg w c.bases st
      let (pa, pr, pv, st) ← extract_class_attrs fuel cfg w fq c.annots st
      let (pam, prm, pvm, st) ← extract_class_methods fuel cfg w c fq c.dirMembers st
      .ok (mkBaseUMLClass c.is_builtin c.is_protocol false
        (c.module ++ "." ++ c.qualname) false ancs pa pr pv pam prm pvm, st)
    else
      .ok (mkBaseUMLClass c.is_builtin c.is_protocol false
        (c.module ++ "." ++ c.qualname) true [] [] [] [] [] [] [], st)

/-- `BaseExtractor.__extract_class_bases` (extractor.py:474-508): builtin
bases are skipped; every other base is inspected as a nested reference. -/
def extract_class_bases (fuel : Nat) (cfg : ExtractorCfg) (w : World)
    (bases : List Raw) (st : EState) : Except String (List Hint × EState) :=
  match fuel with
  | 0 => .error "RecursionError"
  | fuel + 1 =>
    match bases with
    | [] => .ok ([], st)
    | b :: rest =>
      if check_builtins w b then
        extract_class_bases fuel cfg w rest st
      else do
        let rtype ← check_raw_type w b
        let (h, st) ← inspect_class fuel cfg w b rtype st true
        let (more, st) ← extract_class_bases fuel cfg w rest st
        .ok (h :: more, st)

/-- `BaseExtractor.__extract_class_attrs` (extractor.py:510-564): each
annotated attribute (a bare string becoming a `ForwardRef`) is extracted as
a nested reference, wrapped as a `Member` named `fq::name`, and grouped by
its inferred visibility. -/
def extract_class_attrs (fuel : Nat) (cfg : ExtractorCfg) (w : World)
    (fq : String) (annots : List (String × Raw)) (st : EState) :
    Except String (List WParam × List WParam × List WParam × EState) :=
  match fuel with
  | 0 => .error "RecursionError"
  | fuel + 1 =>
    match annots with
    | [] => .ok ([], [], [], st)
    | (name, obj) :: rest => do
      let (obj, rtype) ←
        match obj with
        | .strLit sv => .ok (Raw.fwd sv, UMLType.FORWARD)
        | _ => (check_raw_type w obj).map (fun t => (obj, t))
      let (item, st) ← extract fuel cfg w obj rtype st true
      let member : WParam := ⟨fq ++ "::" ++ name, item⟩
      let (pa, pr, pv, st) ← extract_class_attrs fuel cfg w fq rest st
      match memberMode member.fq with
      | .pub => .ok (member :: pa, pr, pv, st)
      | .prot => .ok (pa, member :: pr, pv, st)
      | .priv => .ok (pa, pr, member :: pv, st)

/-- `BaseExtractor.__extract_class_methods` (extractor.py:566-634):
non-callable members and dunders are skipped, a mangled `_ClassName` infix
is stripped, and each method is inspected as a nested entity and wrapped as
a `Member` named `fq::name`. -/
def extract_class_methods (fuel : Nat) (cfg : ExtractorCfg) (w : World)
    (c : RawClass) (fq : String) (dirMembers : List (String × Raw)) (st : EState) :
    Except String (List WParam × List WParam × List WParam × EState) :=
  match fuel with
  | 0 => .error "RecursionError"
  | fuel + 1 =>
    match dirMembers with
    | [] => .ok ([], [], [], st)
    | (name, obj) :: rest =>
      if ¬ pyCallable obj then
        extract_class_methods fuel cfg w c fq rest st
      else if pyStartsWith name "__" && strEndsWith name "__" then
        extract_class_methods fuel cfg w c fq rest st
      else do
        let name := if strContains name c.name then pyReplace name ("_" ++ c.name) "" else name
        let (mh, st) ← inspect_method fuel cfg w obj .METHOD st true
        let member : WParam := ⟨fq ++ "::" ++ name, mh⟩
        let (pm, prm, pvm, st) ← extract_class_methods fuel cfg w c fq rest st
        match memberMode member.fq with
        | .pub => .ok (member :: pm, prm, pvm, st)
        | .prot => .ok (pm, member :: prm, pvm, st)
        | .priv => .ok (pm, prm, member :: pvm, st)

/-- `BaseExtractor.inspect_method` (extractor.py:636-717). -/
def inspect_method (fuel : Nat) (cfg : ExtractorCfg) (w : World) (raw : Raw)
    (rtype : UMLType) (st : EState) (next_layer : Bool) :
    Except String (Hint × EState) :=
  match fuel with
  | 0 => .error "RecursionError"
  | fuel + 1 => do
    let source_domain := st.working_domain
    let m ←
      match raw with
      | .meth _ => rawMethodOf w raw
      | _ => .error "TypeError: The raw object must be a function or method."
    if check_builtins w raw then
      .error "ValueError: Built-in Methods are not supported."
    else do
      let st := { st with working_domain := m.module }
      let add_to_space := ¬ strContains m.qualname "."
      let fq ← get_full_qualname w raw rtype
      if add_to_space then do
        let (ref_fq, st) ←
          if dmem st.space.refs fq then
            .ok (fq, st)
          else do
            let (r, sp) ← register st.space fq
            .ok (r.full_qualname, { st with space := sp })
        if next_layer then
          .ok (.ref ref_fq, { st with working_domain := source_domain })
        else do
          let empty := !(pyStartsWith m.module cfg.domain) && !cfg.include_external
          let (uml_method, st) ← extract_method fuel cfg w m fq st empty
          let st ←
            if ¬ emptyOf uml_method then do
              let (_, sp) ← add_item st.space uml_method
              .ok { st with space := sp }
            else .ok st
          .ok (.ref ref_fq, { st with working_domain := source_domain })
      else do
        let empty := !(pyStartsWith m.module cfg.domain) && !cfg.include_external
        let (uml_method, st) ← extract_method fuel cfg w m fq st empty
        .ok (.obj uml_method, { st with working_domain := source_domain })

/-- `BaseExtractor.__extract_method` (extractor.py:719-781): parameters and
the reserved `return` key are extracted as nested references and wrapped as
`Param`s named `fq::name`. -/
def extract_method (fuel : Nat) (cfg : ExtractorCfg) (w : World) (m : RawMethod)
    (fq : String) (st : EState) (empty : Bool) :
    Except String (UMLObject × EState) :=
  match fuel with
  | 0 => .error "RecursionError"
  | fuel + 1 =>
    if empty then
      .ok (mkBaseUMLMethod m.qualname fq true [] none, st)
    else do
      let (params, returns, st) ← extract_method_params fuel cfg w m.annots fq st
      .ok (mkBaseUMLMethod m.qualname fq false params returns, st)

/-- The annotations loop of `__extract_method` (extractor.py:756-774). -/
def extract_method_params (fuel : Nat) (cfg : ExtractorCfg) (w : World)
    (annots : List (String × Raw)) (fq : String) (st : EState) :
    Except String (List WParam × Option WParam × EState) :=
  match fuel with
  | 0 => .error "RecursionError"
  | fuel + 1 =>
    match annots with
    | [] => .ok ([], none, st)
    | (name, obj) :: rest => do
      let rtype ← check_raw_type w obj
      if rtype = .METHOD && check_builtins w obj then
        .error "ValueError: Built-in Methods are not supported."
      else do
        let (item, st) ← extract fuel cfg w obj rtype st true
        let (params, returns, st) ← extract_method_params fuel cfg w rest fq st
        if name ≠ "return" then
          .ok (⟨fq ++ "::" ++ name, item⟩ :: params, returns, st)
        else
          .ok (params,
            (returns.elim (some ⟨fq ++ "::" ++ name, item⟩) some), st)

/-- `BaseExtractor.inspect_generic` (extractor.py:783-837): only TypeVars
are independently registered; parameterized/union generics are rebuilt at
each point of use. -/
def inspect_generic (fuel : Nat) (cfg : ExtractorCfg) (w : World) (raw : Raw)
    (rtype : UMLType) (st : EState) (next_layer : Bool) :
    Except String (Hint × EState) :=
  match fuel with
  | 0 => .error "RecursionError"
  | fuel + 1 => do
    let add_to_space := rtype = .TYPEVAR
    let fq ← get_full_qualname w raw rtype
    if add_to_space then do
      let (ref_fq, st) ←
        if dmem st.space.refs fq then
          .ok (fq, st)
        else do
          let (r, sp) ← register st.space fq
          .ok (r.full_qualname, { st with space := sp })
      if next_layer then
        .ok (.ref ref_fq, st)
      else do
        let rmod ← moduleOf w raw
        let empty := !(pyStartsWith rmod cfg.domain) && !cfg.include_external
        let (uml_generic, st) ← extract_generic fuel cfg w raw rtype fq st empty
        let st ←
          if ¬ emptyOf uml_generic then do
            let (_, sp) ← add_item st.space uml_generic
            .ok { st with space := sp }
          else .ok st
        .ok (.ref ref_fq, st)
    else do
      let (uml_generic, st) ← extract_generic fuel cfg w raw rtype fq st false
      .ok (.obj uml_generic, st)

/-- `BaseExtractor.__extract_generic` (extractor.py:839-907): pick the
first non-empty of `__args__`, `__constraints__`, `__bound__` (else
`ValueError`), extract each argument as a nested reference and wrap it as a
`Param` named `fq::idx`. -/
def extract_generic (fuel : Nat) (cfg : ExtractorCfg) (w : World) (raw : Raw)
    (_rtype : UMLType) (fq : String) (st : EState) (empty : Bool) :
    Except String (UMLObject × EState) :=
  match fuel with
  | 0 => .error "RecursionError"
  | fuel + 1 =>
    if empty then
      .ok (mkBaseUMLGeneric (check_builtins w raw) fq true [], st)
    else do
      let g ← rawGenericOf w raw
      let args ←
        if g.args ≠ [] then .ok g.args
        else if g.constraints ≠ [] then .ok g.constraints
        else if g.bound ≠ [] then .ok g.bound
        else .error "ValueError: Unsupported object type"
      let (uml_args, st) ← extract_generic_args fuel cfg w fq 0 args st
      .ok (mkBaseUMLGeneric (check_builtins w raw) fq false uml_args, st)

/-- The argument loop of `__extract_generic` (extractor.py:890-905). -/
def extract_generic_args (fuel : Nat) (cfg : ExtractorCfg) (w : World)
    (fq : String) (idx : Nat) (args : List Raw) (st : EState) :
    Except String (List WParam × EState) :=
  match fuel with
  | 0 => .error "RecursionError"
  | fuel + 1 =>
    match args with
    | [] => .ok ([], st)
    | obj :: rest => do
      let obj ←
        match obj with
        | .strLit sv => .ok (Raw.fwd sv)
        | _ => .ok obj
      let rtype ← check_raw_type w obj
      let (h, st) ← extract fuel cfg w obj rtype st true
      let (more, st) ← extract_generic_args fuel cfg w fq (idx + 1) rest st
      .ok (⟨fq ++ "::" ++ toString idx, h⟩ :: more, st)

/-- `BaseExtractor.inspect_package` (extractor.py:256-351): constants
first (full extraction, results discarded), then the remaining members
with dunder/builtin/domain/limit filtering; sub-modules recurse with the
`layer` counter incremented and decremented around the call — the counter
is never compared against `max_depth` anywhere. -/
def inspect_package (fuel : Nat) (cfg : ExtractorCfg) (w : World) (raw : Raw)
    (st : EState) : Except String (List PkgEntry × EState) :=
  match fuel with
  | 0 => .error "RecursionError"
  | fuel + 1 => do
    let m ← rawModuleOf w raw
    let source_domain := st.working_domain
    let st := { st with working_domain := m.name }
    let st ← package_consts fuel cfg w m.consts st
    let dirs := m.members.filter (fun p => ¬ dmem m.consts p.1)
    let (entries, st) ← package_members fuel cfg w dirs st
    .ok (entries, { st with working_domain := source_domain })

/-- The constants loop of `inspect_package` (extractor.py:277-283): each
`get_type_hints` entry is classified and extracted top-level (the
`next_layer` default is `False`); the results are discarded. -/
def package_consts (fuel : Nat) (cfg : ExtractorCfg) (w : World)
    (consts : List (String × Raw)) (st : EState) : Except String EState :=
  match fuel with
  | 0 => .error "RecursionError"
  | fuel + 1 =>
    match consts with
    | [] => .ok st
    | (_, raw) :: rest => do
      let rtype ← check_raw_type w raw
      let (_, st) ← extract fuel cfg w raw rtype st false
      package_consts fuel cfg w rest st

/-- The members loop of `inspect_package` (extractor.py:293-346). -/
def package_members (fuel : Nat) (cfg : ExtractorCfg) (w : World)
    (members : List (String × Raw)) (st : EState) :
    Except String (List PkgEntry × EState) :=
  match fuel with
  | 0 => .error "RecursionError"
  | fuel + 1 =>
    match members with
    | [] => .ok ([], st)
    | (name, raw) :: rest =>
      if pyStartsWith name "__" && strEndsWith name "__" then
        package_members fuel cfg w rest st
      else if check_builtins w raw then
        package_members fuel cfg w rest st
      else do
        let rtype ← check_raw_type w raw
        let keep : Except String Bool :=
          if ¬ cfg.include_external then
            if rtype = .MODULE then
              (rawModuleOf w raw).map (fun mm => pyStartsWith mm.name cfg.domain)
            else
              (moduleOf w raw).map (fun md => pyStartsWith md cfg.domain)
          else .ok true
        let keep ← keep
        if ¬ keep then
          package_members fuel cfg w rest st
        else do
          let fq := st.working_domain ++ "." ++ name
          if cfg.limit_fqn ≠ "" && ¬ pyStartsWith fq cfg.limit_fqn then
            package_members fuel cfg w rest st
          else do
            let entry : Except String (Option PkgEntry × EState) :=
              match rtype with
              | .CLASS => (inspect_class fuel cfg w raw rtype st false).map
                  (fun p => (some (.item p.1), p.2))
              | .METHOD => (inspect_method fuel cfg w raw rtype st false).map
                  (fun p => (some (.item p.1), p.2))
              | .NAMED_GENERIC => (inspect_generic fuel cfg w raw rtype st false).map
                  (fun p => (some (.item p.1), p.2))
              | .TYPES_UNION => (inspect_generic fuel cfg w raw rtype st false).map
                  (fun p => (some (.item p.1), p.2))
              | .MODULE =>
                (inspect_package fuel cfg w raw { st with layer := st.layer + 1 }).map
                  (fun p => (some (.sub p.1), { p.2 with layer := p.2.layer - 1 }))
              | _ => .ok (none, st)
            let (entry, st) ← entry
            let (more, st) ← package_members fuel cfg w rest st
            match entry with
            | some e => .ok (e :: more, st)
            | none => .ok (more, st)
end

/-! ## C7: the scope-prefix check runs in the opposite direction -/

/-- C7 counterexample: with domain `pkg.sub` and scope prefix `pkg` — a
strict prefix of the domain, so the claim says construction succeeds —
the constructor raises `ValueError`; with domain `pkg` and scope prefix
`pkg.sub` — *not* a prefix of the domain, so the claim says construction
fails — the constructor succeeds.  The code requires the domain to be a
prefix of the scope prefix, not the other way round. -/
theorem limit_check_direction_counterexample :
    (pyStartsWith "pkg.sub" "pkg" = true ∧
      extractor_init_limit "pkg.sub" "pkg" =
        .error "ValueError: limit_fqn must be a subset of the domain") ∧
    (pyStartsWith "pkg" "pkg.sub" = false ∧
      extractor_init_limit "pkg" "pkg.sub" = .ok "pkg.sub") := by
  decide

/-- C7 amended: construction fails (with `ValueError`, the
`ConfigurationError` of the spec) iff the scope prefix is non-empty and its
`"::"`-trimmed form does not start with the domain — i.e. the domain must
be a prefix of the scope prefix; an empty scope prefix always succeeds. -/
theorem extractor_init_limit_iff (domain limit_fqn : String) :
    (∃ e, extractor_init_limit domain limit_fqn = .error e) ↔
      (limit_fqn ≠ "" ∧ pyStartsWith (limit_trim limit_fqn) domain = false) := by
  unfold extractor_init_limit
  by_cases h1 : limit_fqn = ""
  · simp [h1]
  · by_cases h2 : pyStartsWith (limit_trim limit_fqn) domain
    · simp [h1, h2]
    · simp [h1, h2]

/-- Witness for the amended C7 at a concrete rejected configuration. -/
theorem extractor_init_limit_iff_witness :
    ∃ e, extractor_init_limit "pkg.sub" "pkg" = .error e :=
  (extractor_init_limit_iff "pkg.sub" "pkg").mpr ⟨by decide, by decide⟩

/-! ## C5: mutually referencing classes -/

/-- The C5 world: in-domain classes `pkg.A` (member `x` annotated with `B`)
and `pkg.B` (member `y` annotated with `A`). -/
def c5World : World :=
  { classes := [
      { module := "pkg", name := "A", qualname := "A", is_builtin := false,
        is_protocol := false, bases := [], annots := [("x", .cls 1)], dirMembers := [] },
      { module := "pkg", name := "B", qualname := "B", is_builtin := false,
        is_protocol := false, bases := [], annots := [("y", .cls 0)], dirMembers := [] } ] }

/-- The C5 extractor configuration (domain `pkg`, defaults otherwise). -/
def c5Cfg : ExtractorCfg := { domain := "pkg" }

/-- Top-level extraction of `pkg.A` then `pkg.B` into one space. -/
def c5Run : Except String (Hint × EState) :=
  (inspect_class 12 c5Cfg c5World (.cls 0) .CLASS { working_domain := "pkg" } false).bind
    (fun p => inspect_class 12 c5Cfg c5World (.cls 1) .CLASS p.2 false)

/-- The node materialized for `pkg.A`: one public member `x` referencing
`pkg.B`. -/
def c5ObjA : UMLObject := .cls "pkg.A" false false [] [⟨"pkg.A::x", .ref "pkg.B"⟩] []

/-- The node materialized for `pkg.B`: one public member `y` referencing
`pkg.A`. -/
def c5ObjB : UMLObject := .cls "pkg.B" false false [] [⟨"pkg.B::y", .ref "pkg.A"⟩] []

/-- The space reached after extracting both classes. -/
def c5SpaceAB : UMLSpace :=
  { refs := [("pkg.A", 0), ("pkg.B", 1)],
    objs := [("pkg.A", c5ObjA), ("pkg.B", c5ObjB)],
    nextRefId := 2 }

set_option maxHeartbeats 1000000 in
theorem c5Run_eval : c5Run = .ok (.ref "pkg.B", ⟨"pkg", 0, c5SpaceAB⟩) := rfl

/-- C5 counterexample: extraction of the mutually referencing classes
terminates and materializes both, but the synthesized relation set does
NOT contain the claimed class-sourced Dependency edges `pkg.A --> pkg.B`
and `pkg.B --> pkg.A`: the two Dependency edges are sourced at the member
qualified names `pkg.A::x` and `pkg.B::y`. -/
theorem mutual_classes_no_class_sourced_dependency :
    (c5Run.bind (fun p => gen_relations 12 p.2.space)) =
      .ok [⟨"pkg.A::x", "pkg.B", .dependency⟩, ⟨"pkg.B::y", "pkg.A", .dependency⟩] ∧
    (⟨"pkg.A", "pkg.B", .dependency⟩ : UMLRelation) ∉
      [(⟨"pkg.A::x", "pkg.B", .dependency⟩ : UMLRelation),
       ⟨"pkg.B::y", "pkg.A", .dependency⟩] ∧
    (⟨"pkg.B", "pkg.A", .dependency⟩ : UMLRelation) ∉
      [(⟨"pkg.A::x", "pkg.B", .dependency⟩ : UMLRelation),
       ⟨"pkg.B::y", "pkg.A", .dependency⟩] := by
  refine ⟨?_, by decide, by decide⟩
  rw [c5Run_eval]
  show gen_relations 12 c5SpaceAB =
    .ok [⟨"pkg.A::x", "pkg.B", .dependency⟩, ⟨"pkg.B::y", "pkg.A", .dependency⟩]
  decide

/-- C5 amended: for the mutually referencing in-domain classes, top-level
extraction of both terminates successfully; each class is registered
exactly once (one stored reference each and exactly two reference
allocations) and materialized exactly once (the node map holds exactly
`pkg.A` and `pkg.B`, in that order); relation synthesis yields exactly the
two Dependency edges `pkg.A::x --> pkg.B` and `pkg.B::y --> pkg.A`,
sourced at the member qualified names rather than at the classes. -/
theorem mutual_classes_extraction_behaviour :
    (c5Run.map (fun p => p.2.space.objs.map Prod.fst)) = .ok ["pkg.A", "pkg.B"] ∧
    (c5Run.map (fun p => p.2.space.refs)) = .ok [("pkg.A", 0), ("pkg.B", 1)] ∧
    (c5Run.map (fun p => p.2.space.nextRefId)) = .ok 2 ∧
    (c5Run.bind (fun p => gen_relations 12 p.2.space)) =
      .ok [⟨"pkg.A::x", "pkg.B", .dependency⟩, ⟨"pkg.B::y", "pkg.A", .dependency⟩] := by
  rw [c5Run_eval]
  refine ⟨by decide, by decide, by decide, ?_⟩
  show gen_relations 12 c5SpaceAB =
    .ok [⟨"pkg.A::x", "pkg.B", .dependency⟩, ⟨"pkg.B::y", "pkg.A", .dependency⟩]
  decide

/-! ## C8: `max_depth` is never enforced -/

/-- The C8 world: root module `pkg` with sub-module `pkg.sub` holding the
in-domain class `pkg.sub.C`. -/
def c8World : World :=
  { classes := [
      { module := "pkg.sub", name := "C", qualname := "C", is_builtin := false,
        is_protocol := false, bases := [], annots := [], dirMembers := [] } ],
    modules := [
      { name := "pkg", consts := [], members := [("sub", .module 1)] },
      { name := "pkg.sub", consts := [], members := [("C", .cls 0)] } ] }

/-- The C8 configuration: `max_depth = 0`, so per the claim no sub-module
at all may be descended into. -/
def c8Cfg : ExtractorCfg := { domain := "pkg", max_depth := 0 }

/-- Module traversal of the root package under `max_depth = 0`. -/
def c8Run : Except String (List PkgEntry × EState) :=
  inspect_package 50 c8Cfg c8World (.module 0) { working_domain := "pkg" }

/-- C8: with `max_depth = 0` the traversal still recurses into the
sub-module `pkg.sub` (one level below the root, exceeding the bound) and
materializes its class `pkg.sub.C`; the `layer` counter is incremented and
restored but never compared against `max_depth`. -/
theorem max_depth_not_enforced :
    c8Cfg.max_depth = 0 ∧
    (c8Run.map (fun p => dmem p.2.space.objs "pkg.sub.C")) = .ok true ∧
    (c8Run.map (fun p => p.2.layer)) = .ok 0 := by
  decide

end Pumlpy
